import Mathlib

/-!
Verification development for the PRAD guessing-game client (`client.py`).

The client is a synchronous, single-threaded TCP client.  We shallowly embed
the session logic: each call to `receive_json` is modelled by consuming one
element of an environment-supplied list, interactive `input()` calls consume
one element of a list of user-input lines, and every observable side effect
(outbound line, rendered panel, prompt, close, farewell) is recorded in a
trace of events.  Python exceptions that would escape a function are modelled
by an explicit error result, and an `input()` with no remaining user line is
modelled as blocking forever.
-/

/-- Parsed JSON values, as returned by `json.loads` (integral numbers only;
none of the verified behaviour depends on float arithmetic). -/
inductive JVal where
  | null
  | bool (b : Bool)
  | num (n : Int)
  | str (s : String)
  | arr (xs : List JVal)
  | obj (fields : List (String × JVal))
deriving Repr

namespace JVal

/-- Python truth-value test `if not data:` on a parsed JSON value. -/
def falsy : JVal → Bool
  | .null => true
  | .bool b => !b
  | .num n => n == 0
  | .str s => s == ""
  | .arr xs => xs.isEmpty
  | .obj fs => fs.isEmpty

/-- Python `d == 0` on a parsed JSON value (used by `display_leaderboard`
for `data['count'] == 0`; Python `False == 0` is true). -/
def eqZero : JVal → Bool
  | .num n => n == 0
  | .bool b => !b
  | _ => false

end JVal

/-- `d.get(k)` / `d[k]` field lookup on a parsed JSON object. -/
def dictGet (fs : List (String × JVal)) (k : String) : Option JVal :=
  (fs.find? (fun p => p.1 == k)).map (fun p => p.2)

/-- Python `v == k` for a string literal `k`: true only on an equal string
(no other JSON value compares equal to a string). -/
def JVal.isStr (v : JVal) (k : String) : Bool :=
  match v with
  | .str s => s == k
  | _ => false

/-- Python `msg_type == k` where `msg_type = data.get('type')` may be `None`. -/
def typeIs (t : Option JVal) (k : String) : Bool :=
  match t with
  | some v => v.isStr k
  | none => false

/-- Rendering of a JSON value into an f-string slot.  Only string and
integer values occur in the verified scenarios; the remaining cases are a
fixed textual abstraction of Python `str`. -/
def pyStr : JVal → String
  | .str s => s
  | .num n => toString n
  | .bool true => "True"
  | .bool false => "False"
  | .null => "None"
  | .arr _ => "[...]"
  | .obj _ => "[...]"

/-- Python `str.strip()`: remove leading and trailing whitespace.  (Defined
structurally so that concrete inputs evaluate inside the kernel.) -/
def pyStrip (s : String) : String :=
  ⟨((s.data.dropWhile Char.isWhitespace).reverse.dropWhile Char.isWhitespace).reverse⟩

/-- Python `str.lower()`. -/
def pyLower (s : String) : String :=
  ⟨s.data.map Char.toLower⟩

/-- Outcome of running a piece of Python code: normal value, an uncaught
exception, process interruption (SIGINT handler calling `sys.exit`), or
blocking forever on `input()` with no user line available. -/
inductive PyResult (α : Type) where
  | ok (a : α)
  | exn (e : String)
  | intr
  | blocked
deriving Repr

/-- Map over a normal result, preserving abnormal outcomes. -/
def PyResult.pmap (f : α → β) : PyResult α → PyResult β
  | .ok a => .ok (f a)
  | .exn e => .exn e
  | .intr => .intr
  | .blocked => .blocked

/-- Observable events of the client: outbound lines and rendered output. -/
inductive Ev where
  | sent (line : String)
  | statsPanel
  | leaderboardPanel
  | emptyLeaderboard
  | namePrompt (msg : JVal)
  | welcome (name : String)
  | roundStart (player mn mx : JVal)
  | hintHigh (attempts : JVal)
  | hintLow (attempts : JVal)
  | victoryBanner
  | celebration (player number attempts duration score : JVal)
  | errorNotice (msg : JVal)
  | byeFarewell (msg : JVal)
  | connectionLost
  | guessPrompt
  | retryPrompt
  | reconnectNote
  | connectOk
  | connectFail
  | transportClosed
  | welcomeBanner
  | interruptNote
  | errPrinted (e : String)
  | farewell
deriving Repr

/-- Mutable state of `GameClient` that the session logic reads or writes. -/
structure Client where
  player_name : String
  connected : Bool
deriving Repr, DecidableEq

/-- What one `socket.recv` call delivers: a graceful remote close (empty
data), a timeout or socket error (the bare `except` path), a payload that
`json.loads` rejects, or a payload parsed to a JSON value. -/
inductive NetEv where
  | closed
  | fault
  | malformed
  | parsed (v : JVal)
deriving Repr

/-- `GameClient.receive_json`: returns the parsed value, or `none` for
no data, socket error/timeout, or a `json.JSONDecodeError`. -/
def receive_json : NetEv → Option JVal
  | .closed => none
  | .fault => none
  | .malformed => none
  | .parsed v => some v

/-- `d[k]` subscript access on an object: `KeyError` when absent. -/
def requireKey (fs : List (String × JVal)) (k : String) (kont : JVal → PyResult α) : PyResult α :=
  match dictGet fs k with
  | none => .exn "KeyError"
  | some v => kont v

/-- Python arithmetic or ordering on a value that must be a number. -/
def requireNum (v : JVal) (kont : Int → PyResult α) : PyResult α :=
  match v with
  | .num n => kont n
  | _ => .exn "TypeError"

/-- `GameClient.display_stats`: field accesses and arithmetic in source
order (`uptime` and `avg_attempts` are used arithmetically, the remaining
fields are only printed); a missing key raises `KeyError`.  The rendered
panel is abstracted into one event. -/
def display_stats (v : JVal) : PyResult (List Ev) :=
  match v with
  | .obj fs =>
    requireKey fs "uptime" fun u => requireNum u fun _ =>
    requireKey fs "avg_attempts" fun a => requireNum a fun _ =>
    requireKey fs "active_clients" fun _ =>
    requireKey fs "total_served" fun _ =>
    requireKey fs "total_games" fun _ =>
    requireKey fs "best_attempts" fun _ =>
    .ok [.statsPanel]
  | _ => .exn "TypeError"

/-- One row of `display_leaderboard`: accesses `rank` (ordered with `<=`,
so it must be numeric), `score` (divided, so numeric), `name`, `attempts`
and `duration`. -/
def checkScore (v : JVal) : PyResult Unit :=
  match v with
  | .obj fs =>
    requireKey fs "rank" fun r => requireNum r fun _ =>
    requireKey fs "score" fun s => requireNum s fun _ =>
    requireKey fs "name" fun _ =>
    requireKey fs "attempts" fun _ =>
    requireKey fs "duration" fun _ => .ok ()
  | _ => .exn "TypeError"

/-- Sequence the row checks of `display_leaderboard`. -/
def checkScores : List JVal → PyResult Unit
  | [] => .ok ()
  | x :: xs =>
    match checkScore x with
    | .ok _ => checkScores xs
    | .exn e => .exn e
    | .intr => .intr
    | .blocked => .blocked

/-- `GameClient.display_leaderboard`: `count == 0` renders the empty box;
otherwise the `scores` rows are iterated (each row's `rank < data['count']`
comparison also needs a numeric `count` once a row exists). -/
def display_leaderboard (v : JVal) : PyResult (List Ev) :=
  match v with
  | .obj fs =>
    requireKey fs "count" fun c =>
    if c.eqZero then .ok [.emptyLeaderboard]
    else
      requireKey fs "scores" fun ss =>
      match ss with
      | .arr [] => .ok [.leaderboardPanel]
      | .arr xs =>
        match checkScores xs with
        | .ok _ => requireNum c fun _ => .ok [.leaderboardPanel]
        | .exn e => .exn e
        | .intr => .intr
        | .blocked => .blocked
      | _ => .exn "TypeError"
  | _ => .exn "TypeError"

/-- `GameClient.ask_retry`: print the retry question, read one line
(stripped then lowercased); the answer is yes iff it is an accepted token. -/
def ask_retry : List String → List Ev × PyResult Bool × List String
  | [] => ([.retryPrompt], .blocked, [])
  | c :: ins =>
    ([.retryPrompt], .ok (["o", "oui", "y", "yes"].contains (pyLower (pyStrip c))), ins)

/-- Result of the guess loop: `break` back to the outer receive loop, or a
`return` from `play_game` carrying the returned boolean. -/
inductive InnerRes where
  | toOuter
  | finished (b : Bool)
deriving Repr

/-- Output of the guess loop: trace, outcome, remaining user lines and
remaining receive outcomes. -/
structure RoundOut where
  trace : List Ev
  res : PyResult InnerRes
  ins : List String
  frames : List (Option JVal)
deriving Repr

/-- The guess loop inside `GameClient.play_game` (the `while True:` entered
on `game_start`).  Arguments are the pending user lines and the pending
`receive_json` outcomes.  An empty (stripped) line is re-prompted without
sending; otherwise the line is sent and one reply consumed: a falsy or
absent reply breaks to the outer loop, `hint`/`stats`/`error` render and
continue, `victory` renders, makes one courtesy receive and asks the retry
question, `bye` renders and returns `False`, any other type is ignored. -/
def guess_loop : List String → List (Option JVal) → RoundOut
  | [], frames => ⟨[.guessPrompt], .blocked, [], frames⟩
  | raw :: ins, frames =>
    let g := pyStrip raw
    if g == "" then
      let o := guess_loop ins frames
      ⟨.guessPrompt :: o.trace, o.res, o.ins, o.frames⟩
    else
      match frames with
      | [] => ⟨[.guessPrompt, .sent g], .ok .toOuter, ins, []⟩
      | none :: frames => ⟨[.guessPrompt, .sent g], .ok .toOuter, ins, frames⟩
      | some r :: frames =>
        if r.falsy then ⟨[.guessPrompt, .sent g], .ok .toOuter, ins, frames⟩
        else
          match r with
          | .obj fs =>
            let t := dictGet fs "type"
            if typeIs t "hint" then
              match dictGet fs "direction", dictGet fs "attempts" with
              | none, _ => ⟨[.guessPrompt, .sent g], .exn "KeyError", ins, frames⟩
              | some _, none => ⟨[.guessPrompt, .sent g], .exn "KeyError", ins, frames⟩
              | some d, some a =>
                let hv := if d.isStr "grand" then Ev.hintHigh a else Ev.hintLow a
                let o := guess_loop ins frames
                ⟨[.guessPrompt, .sent g, hv] ++ o.trace, o.res, o.ins, o.frames⟩
            else if typeIs t "victory" then
              match dictGet fs "player", dictGet fs "number", dictGet fs "attempts",
                    dictGet fs "duration", dictGet fs "score" with
              | some p, some n, some a, some d, some s =>
                let pre := [Ev.guessPrompt, .sent g, .victoryBanner, .celebration p n a d s]
                match frames with
                | [] =>
                  let r := ask_retry ins
                  ⟨pre ++ r.1, r.2.1.pmap .finished, r.2.2, []⟩
                | none :: frames =>
                  let r := ask_retry ins
                  ⟨pre ++ r.1, r.2.1.pmap .finished, r.2.2, frames⟩
                | some lb :: frames =>
                  if lb.falsy then
                    let r := ask_retry ins
                    ⟨pre ++ r.1, r.2.1.pmap .finished, r.2.2, frames⟩
                  else
                    match lb with
                    | .obj fs2 =>
                      if typeIs (dictGet fs2 "type") "leaderboard" then
                        match display_leaderboard (.obj fs2) with
                        | .ok evs =>
                          let r := ask_retry ins
                          ⟨pre ++ evs ++ r.1, r.2.1.pmap .finished, r.2.2, frames⟩
                        | .exn e => ⟨pre, .exn e, ins, frames⟩
                        | .intr => ⟨pre, .intr, ins, frames⟩
                        | .blocked => ⟨pre, .blocked, ins, frames⟩
                      else
                        let r := ask_retry ins
                        ⟨pre ++ r.1, r.2.1.pmap .finished, r.2.2, frames⟩
                    | _ => ⟨pre, .exn "AttributeError", ins, frames⟩
              | _, _, _, _, _ =>
                ⟨[Ev.guessPrompt, .sent g, .victoryBanner], .exn "KeyError", ins, frames⟩
            else if typeIs t "stats" then
              match display_stats r with
              | .ok evs =>
                let o := guess_loop ins frames
                ⟨[Ev.guessPrompt, .sent g] ++ evs ++ o.trace, o.res, o.ins, o.frames⟩
              | .exn e => ⟨[.guessPrompt, .sent g], .exn e, ins, frames⟩
              | .intr => ⟨[.guessPrompt, .sent g], .intr, ins, frames⟩
              | .blocked => ⟨[.guessPrompt, .sent g], .blocked, ins, frames⟩
            else if typeIs t "error" then
              match dictGet fs "message" with
              | none => ⟨[.guessPrompt, .sent g], .exn "KeyError", ins, frames⟩
              | some m =>
                let o := guess_loop ins frames
                ⟨[Ev.guessPrompt, .sent g, .errorNotice m] ++ o.trace, o.res, o.ins, o.frames⟩
            else if typeIs t "bye" then
              match dictGet fs "message" with
              | none => ⟨[.guessPrompt, .sent g], .exn "KeyError", ins, frames⟩
              | some m =>
                ⟨[.guessPrompt, .sent g, .byeFarewell m], .ok (.finished false), ins, frames⟩
            else
              let o := guess_loop ins frames
              ⟨.guessPrompt :: .sent g :: o.trace, o.res, o.ins, o.frames⟩
          | _ => ⟨[.guessPrompt, .sent g], .exn "AttributeError", ins, frames⟩
termination_by structural ins _ => ins


/-- Output of `play_game` and of the run loop: trace, result, client state,
remaining user lines and remaining receive outcomes. -/
structure GameOut where
  trace : List Ev
  res : PyResult Bool
  st : Client
  ins : List String
  frames : List (Option JVal)
deriving Repr

/-- `GameClient.play_game`: the outer receive loop (`while self.connected:`).
When `connected` is false the loop body never runs and the Python function
returns `None`, which the caller treats exactly like `False`; modelled as
`False`.  Each iteration consumes one `receive_json` outcome; a falsy or
absent frame is reported as a lost connection and returns `False`;
`stats` / `leaderboard` / `prompt` / `name_accepted` render and continue;
`game_start` renders the round box and enters the guess loop; a top-level
`error` renders and returns `False`; any other type matches no branch and
is silently ignored. -/
def play_game (st : Client) (ins : List String) (frames : List (Option JVal)) : GameOut :=
  if st.connected then
    match frames with
    | [] => ⟨[.connectionLost], .ok false, st, ins, []⟩
    | f :: frames =>
      match f with
      | none => ⟨[.connectionLost], .ok false, st, ins, frames⟩
      | some d =>
        if d.falsy then ⟨[.connectionLost], .ok false, st, ins, frames⟩
        else
          match d with
          | .obj fs =>
            let t := dictGet fs "type"
            if typeIs t "stats" then
              match display_stats (.obj fs) with
              | .ok evs =>
                let o := play_game st ins frames
                ⟨evs ++ o.trace, o.res, o.st, o.ins, o.frames⟩
              | .exn e => ⟨[], .exn e, st, ins, frames⟩
              | .intr => ⟨[], .intr, st, ins, frames⟩
              | .blocked => ⟨[], .blocked, st, ins, frames⟩
            else if typeIs t "leaderboard" then
              match display_leaderboard (.obj fs) with
              | .ok evs =>
                let o := play_game st ins frames
                ⟨evs ++ o.trace, o.res, o.st, o.ins, o.frames⟩
              | .exn e => ⟨[], .exn e, st, ins, frames⟩
              | .intr => ⟨[], .intr, st, ins, frames⟩
              | .blocked => ⟨[], .blocked, st, ins, frames⟩
            else if typeIs t "prompt" then
              match dictGet fs "message" with
              | none => ⟨[], .exn "KeyError", st, ins, frames⟩
              | some m =>
                match ins with
                | [] => ⟨[.namePrompt m], .blocked, st, [], frames⟩
                | n :: ins =>
                  let o := play_game st ins frames
                  ⟨[Ev.namePrompt m, .sent (pyStrip n)] ++ o.trace, o.res, o.st, o.ins, o.frames⟩
            else if typeIs t "name_accepted" then
              match dictGet fs "name" with
              | none => ⟨[], .exn "KeyError", st, ins, frames⟩
              | some v =>
                let o := play_game { st with player_name := pyStr v } ins frames
                ⟨Ev.welcome (pyStr v) :: o.trace, o.res, o.st, o.ins, o.frames⟩
            else if typeIs t "game_start" then
              match dictGet fs "player", dictGet fs "min", dictGet fs "max" with
              | some p, some mn, some mx =>
                let io := guess_loop ins frames
                match io.res with
                | .ok .toOuter =>
                  let o := play_game st io.ins io.frames
                  ⟨Ev.roundStart p mn mx :: (io.trace ++ o.trace), o.res, o.st, o.ins, o.frames⟩
                | .ok (.finished b) =>
                  ⟨Ev.roundStart p mn mx :: io.trace, .ok b, st, io.ins, io.frames⟩
                | .exn e => ⟨Ev.roundStart p mn mx :: io.trace, .exn e, st, io.ins, io.frames⟩
                | .intr => ⟨Ev.roundStart p mn mx :: io.trace, .intr, st, io.ins, io.frames⟩
                | .blocked => ⟨Ev.roundStart p mn mx :: io.trace, .blocked, st, io.ins, io.frames⟩
              | _, _, _ => ⟨[], .exn "KeyError", st, ins, frames⟩
            else if typeIs t "error" then
              match dictGet fs "message" with
              | none => ⟨[], .exn "KeyError", st, ins, frames⟩
              | some m => ⟨[Ev.errorNotice m], .ok false, st, ins, frames⟩
            else
              play_game st ins frames
          | _ => ⟨[], .exn "AttributeError", st, ins, frames⟩
  else ⟨[], .ok false, st, ins, frames⟩
termination_by frames.length
decreasing_by
  all_goals simp only [List.length_cons]
  all_goals first
    | omega
    | -- the guess loop only consumes receive outcomes, so the frames it
      -- hands back to the outer loop are no longer than what it was given
      (have key : ∀ (is : List String) (fr : List (Option JVal)),
          (guess_loop is fr).frames.length ≤ fr.length := by
        intro is
        induction is with
        | nil => simp [guess_loop]
        | cons raw is ih =>
          intro fr
          simp only [guess_loop]
          repeat' split
          all_goals simp_all
          all_goals try omega
          all_goals exact Nat.le_succ_of_le (ih _)
       exact Nat.lt_succ_of_le (key _ _))

/-- `play_game` driven by raw socket outcomes: the loop only ever sees the
network through `receive_json`. -/
def play_gameNet (st : Client) (ins : List String) (net : List NetEv) : GameOut :=
  play_game st ins (net.map receive_json)

/-- `GameClient.disconnect`: close the socket (idempotent, exceptions
swallowed) and clear the connected flag. -/
def disconnect (st : Client) : List Ev × Client :=
  ([.transportClosed], { st with connected := false })

/-- `GameClient.connect`: the environment decides whether the TCP connect
succeeds.  On success the connected flag is set; on failure it is left as
it was (the source assigns `True` only after a successful `connect`). -/
def connect (st : Client) (outcome : Bool) : List Ev × Client × Bool :=
  if outcome then ([.connectOk], { st with connected := true }, true)
  else ([.connectFail], st, false)

/-- Output of the run loop: trace, result, client state, and the remaining
user lines, receive outcomes and connect outcomes. -/
structure RunOut where
  trace : List Ev
  res : PyResult Unit
  st : Client
  ins : List String
  frames : List (Option JVal)
  conns : List Bool
deriving Repr

/-- The `while True:` loop of `GameClient.run`: play a game; if it did not
ask for a retry, stop; otherwise print the note, disconnect, pause, attempt
a fresh connect (one environment outcome per attempt; an exhausted outcome
list is a failed attempt), give up on failure, and on success drain up to
two informational frames discarding their values and resend the stored
player name before looping. -/
def run_loop (st : Client) (ins : List String) (frames : List (Option JVal))
    (conns : List Bool) : RunOut :=
  let g := play_game st ins frames
  match g.res with
  | .ok true =>
    let d := disconnect g.st
    match conns with
    | [] =>
      ⟨g.trace ++ [Ev.reconnectNote] ++ d.1 ++ [Ev.connectFail], .ok (), d.2, g.ins,
        g.frames, []⟩
    | c :: cs =>
      let cr := connect d.2 c
      if cr.2.2 then
        let o := run_loop cr.2.1 g.ins (g.frames.drop 2) cs
        ⟨g.trace ++ [Ev.reconnectNote] ++ d.1 ++ cr.1 ++ [Ev.sent cr.2.1.player_name]
            ++ o.trace,
          o.res, o.st, o.ins, o.frames, o.conns⟩
      else
        ⟨g.trace ++ [Ev.reconnectNote] ++ d.1 ++ cr.1, .ok (), cr.2.1, g.ins, g.frames, cs⟩
  | .ok false => ⟨g.trace, .ok (), g.st, g.ins, g.frames, conns⟩
  | .exn e => ⟨g.trace, .exn e, g.st, g.ins, g.frames, conns⟩
  | .intr => ⟨g.trace, .intr, g.st, g.ins, g.frames, conns⟩
  | .blocked => ⟨g.trace, .blocked, g.st, g.ins, g.frames, conns⟩
termination_by conns.length
decreasing_by simp

/-- A fresh `GameClient`: no name stored, not connected. -/
def init_client : Client := ⟨"", false⟩

/-- `GameClient.run`: welcome box, initial connect (one environment
outcome; an exhausted outcome list means failure), then the retry loop. -/
def run (ins : List String) (frames : List (Option JVal)) (conns : List Bool) : RunOut :=
  match conns with
  | [] => ⟨[.welcomeBanner, .connectFail], .ok (), init_client, ins, frames, []⟩
  | c :: conns =>
    let cr := connect init_client c
    if cr.2.2 then
      let o := run_loop cr.2.1 ins frames conns
      ⟨Ev.welcomeBanner :: cr.1 ++ o.trace, o.res, o.st, o.ins, o.frames, o.conns⟩
    else
      ⟨Ev.welcomeBanner :: cr.1, .ok (), init_client, ins, frames, conns⟩

/-- The `try/except/finally` around `client.run()` in `main`: whatever way
the run ends — normal return, an uncaught `Exception` (caught and
reported), or `SystemExit` raised by the SIGINT handler (not caught by
`except Exception` but still unwinding through `finally`) — the `finally`
block closes the transport and prints the farewell as the final action.  A
run blocked forever on `input()` never returns, so no final trace exists
for it. -/
def main_run (t : List Ev) (r : PyResult Unit) : Option (List Ev) :=
  match r with
  | .ok _ => some (t ++ [.transportClosed, .farewell])
  | .exn e => some (t ++ [.errPrinted e, .transportClosed, .farewell])
  | .intr => some (t ++ [.interruptNote, .transportClosed, .farewell])
  | .blocked => none

/-- A `hint` frame. -/
def hintObj (d a : JVal) : JVal :=
  .obj [("type", .str "hint"), ("direction", d), ("attempts", a)]

/-- A `victory` frame with all the fields the celebration box reads. -/
def victoryObj (p n a d s : JVal) : JVal :=
  .obj [("type", .str "victory"), ("player", p), ("number", n), ("attempts", a),
        ("duration", d), ("score", s)]

/-- A `game_start` frame with the fields the round box reads. -/
def gameStartObj (p mn mx : JVal) : JVal :=
  .obj [("type", .str "game_start"), ("player", p), ("min", mn), ("max", mx)]

/-- A `bye` frame. -/
def byeObj (m : JVal) : JVal := .obj [("type", .str "bye"), ("message", m)]

/-- An `error` frame. -/
def errObj (m : JVal) : JVal := .obj [("type", .str "error"), ("message", m)]

/-- A concrete well-formed `stats` frame. -/
def statsObj0 : JVal :=
  .obj [("type", .str "stats"), ("uptime", .num 5), ("active_clients", .num 1),
        ("total_served", .num 2), ("total_games", .num 3), ("best_attempts", .num 0),
        ("avg_attempts", .num 4)]

/-- A concrete well-formed (empty) `leaderboard` frame. -/
def lbObj0 : JVal := .obj [("type", .str "leaderboard"), ("count", .num 0)]

/-- The field list of a concrete well-formed `victory` frame. -/
def vfields0 : List (String × JVal) :=
  [("type", .str "victory"), ("player", .str "bob"), ("number", .num 42),
   ("attempts", .num 2), ("duration", .num 13), ("score", .num 9700)]

/-- A courtesy-fetch outcome after a victory is benign when it is absent,
falsy, or an object that — when it claims to be a leaderboard — renders
without raising.  (A truthy non-object reply would crash the `.get` call,
and a leaderboard missing its fields would crash the renderer.) -/
def courtesyBenign : Option JVal → Bool
  | none => true
  | some v =>
    v.falsy ||
    match v with
    | .obj fs =>
      if typeIs (dictGet fs "type") "leaderboard" then
        match display_leaderboard (.obj fs) with
        | .ok _ => true
        | _ => false
      else true
    | _ => false

/-- The courtesy frame is rendered iff it arrived truthy and is
leaderboard-typed (`if lb_data and lb_data.get('type') == 'leaderboard'`). -/
def rendersLeaderboard : Option JVal → Bool
  | some (JVal.obj fs) => !(JVal.obj fs).falsy && typeIs (dictGet fs "type") "leaderboard"
  | _ => false

/-- Is an event an outbound line? -/
def Ev.isSent : Ev → Bool
  | .sent _ => true
  | _ => false

/-- The retry question is printed by `ask_retry` before it reads input. -/
theorem ask_retry_trace (ins : List String) : (ask_retry ins).1 = [.retryPrompt] := by
  cases ins <;> rfl

/-- A successful stats render produces exactly the stats panel. -/
theorem display_stats_ok (v : JVal) (evs : List Ev) (h : display_stats v = .ok evs) :
    evs = [.statsPanel] := by
  unfold display_stats requireKey requireNum at h
  repeat' split at h <;> try simp_all

/-- A successful leaderboard render produces exactly one panel event. -/
theorem display_leaderboard_ok (v : JVal) (evs : List Ev)
    (h : display_leaderboard v = .ok evs) :
    evs = [.emptyLeaderboard] ∨ evs = [.leaderboardPanel] := by
  unfold display_leaderboard requireKey requireNum at h
  repeat' split at h <;> try simp_all

/-- A dictionary with a bound key is nonempty. -/
theorem dictGet_isEmpty_false (fs : List (String × JVal)) (k : String) (v : JVal)
    (h : dictGet fs k = some v) : fs.isEmpty = false := by
  cases fs <;> simp_all [dictGet]

/-- A true `typeIs` pins the `type` field down to the compared string. -/
theorem typeIs_eq (t : Option JVal) (k : String) (h : typeIs t k = true) :
    t = some (.str k) := by
  match t with
  | none => simp [typeIs] at h
  | some v => cases v <;> simp_all [typeIs, JVal.isStr]

/-- C3 (counterexample): with `game_start` followed immediately by `bye`
the session does terminate, but only after the client has prompted for and
sent one guess — the `bye` is read as the reply to that guess — so exactly
one outbound line has been sent, not zero. -/
theorem C3_counterexample :
    (play_game ⟨"bob", true⟩ ["42"]
        [some (gameStartObj (.str "bob") (.num 0) (.num 100)),
         some (byeObj (.str "ciao"))]).res = .ok false
    ∧ ((play_game ⟨"bob", true⟩ ["42"]
        [some (gameStartObj (.str "bob") (.num 0) (.num 100)),
         some (byeObj (.str "ciao"))]).trace.filter Ev.isSent).length = 1 := by
  have h : play_game ⟨"bob", true⟩ ["42"]
      [some (gameStartObj (.str "bob") (.num 0) (.num 100)),
       some (byeObj (.str "ciao"))]
      = ⟨[.roundStart (.str "bob") (.num 0) (.num 100), .guessPrompt, .sent "42",
          .byeFarewell (.str "ciao")], .ok false, ⟨"bob", true⟩, [], []⟩ := by
    simp [play_game, guess_loop, gameStartObj, byeObj, dictGet, typeIs, JVal.isStr,
      JVal.falsy, pyStrip]
  rw [h]
  constructor
  · rfl
  · rfl

/-- C3 (amended): a `game_start` immediately followed by `bye` terminates
the session (`play_game` returns `False` after rendering the farewell),
but only after the first guess has been prompted for and sent: the `bye`
arrives as the reply to that guess, so exactly one outbound guess line is
sent rather than zero. -/
theorem C3_amended (st : Client) (g : String) (ins : List String) (p mn mx m : JVal)
    (hc : st.connected = true) (hg : ¬ pyStrip g = "") :
    play_game st (g :: ins) [some (gameStartObj p mn mx), some (byeObj m)]
      = ⟨[.roundStart p mn mx, .guessPrompt, .sent (pyStrip g), .byeFarewell m],
         .ok false, st, ins, []⟩
    ∧ ([Ev.roundStart p mn mx, .guessPrompt, .sent (pyStrip g),
        .byeFarewell m].filter Ev.isSent).length = 1 := by
  constructor
  · simp [play_game, guess_loop, gameStartObj, byeObj, dictGet, typeIs, JVal.isStr,
      JVal.falsy, hc, hg]
  · simp [Ev.isSent]

/-- C3 (amended, witness): the amended claim at the concrete scenario. -/
theorem C3_amended_witness :
    (⟨"bob", true⟩ : Client).connected = true ∧ ¬ pyStrip "42" = ""
    ∧ (play_game ⟨"bob", true⟩ ["42"]
          [some (gameStartObj (.str "bob") (.num 0) (.num 100)),
           some (byeObj (.str "ciao"))]
        = ⟨[.roundStart (.str "bob") (.num 0) (.num 100), .guessPrompt,
            .sent (pyStrip "42"), .byeFarewell (.str "ciao")],
           .ok false, ⟨"bob", true⟩, [], []⟩
       ∧ ([Ev.roundStart (.str "bob") (.num 0) (.num 100), .guessPrompt,
           .sent (pyStrip "42"), .byeFarewell (.str "ciao")].filter Ev.isSent).length = 1) :=
  ⟨rfl, by decide,
    C3_amended ⟨"bob", true⟩ "42" [] (.str "bob") (.num 0) (.num 100) (.str "ciao")
      rfl (by decide)⟩

/-- C4 (counterexample): the spec scenario frame with direction `too_high`
is rendered as the *too low* hint: the code compares the direction against
the literal `'grand'`, so `too_high` falls into the "Trop petit" branch. -/
theorem C4_counterexample :
    (guess_loop ["50"] [some (hintObj (.str "too_high") (.num 1))]).trace
      = [.guessPrompt, .sent "50", .hintLow (.num 1), .guessPrompt]
    ∧ Ev.hintHigh (.num 1) ∉
        (guess_loop ["50"] [some (hintObj (.str "too_high") (.num 1))]).trace := by
  have h : (guess_loop ["50"] [some (hintObj (.str "too_high") (.num 1))]).trace
      = [.guessPrompt, .sent "50", .hintLow (.num 1), .guessPrompt] := rfl
  exact ⟨h, by rw [h]; simp⟩

/-- C4 (amended): the hint direction is compared against `'grand'`: a
`grand` direction renders the too-high feedback and every other direction
value (including `too_high` and `petit`) renders the too-low feedback,
each carrying the attempts value, and the round then continues unchanged. -/
theorem C4_amended (raw : String) (ins : List String) (d a : JVal)
    (frames : List (Option JVal)) (hg : ¬ pyStrip raw = "") :
    guess_loop (raw :: ins) (some (hintObj d a) :: frames)
      = ⟨[.guessPrompt, .sent (pyStrip raw),
          if d.isStr "grand" then .hintHigh a else .hintLow a]
          ++ (guess_loop ins frames).trace,
         (guess_loop ins frames).res, (guess_loop ins frames).ins,
         (guess_loop ins frames).frames⟩ := by
  simp only [guess_loop, hintObj, dictGet, typeIs, JVal.isStr, JVal.falsy]
  simp [hg]

/-- C4 (amended, witness): direction `too_high` concretely yields the
too-low hint event. -/
theorem C4_amended_witness :
    ¬ pyStrip "50" = ""
    ∧ guess_loop ["50"] [some (hintObj (.str "too_high") (.num 1))]
      = ⟨[.guessPrompt, .sent (pyStrip "50"),
          if (JVal.str "too_high").isStr "grand" then .hintHigh (.num 1)
          else .hintLow (.num 1)]
          ++ (guess_loop [] []).trace,
         (guess_loop [] []).res, (guess_loop [] []).ins, (guess_loop [] []).frames⟩ :=
  ⟨by decide, C4_amended "50" [] (.str "too_high") (.num 1) [] (by decide)⟩

/-- C7: an `error` reply inside a round renders the message and leaves the
round loop exactly where it was (the rest of the loop runs on the same
remaining inputs and frames, nothing extra sent); at session level the
client state — stored name and transport flag — is returned untouched and
the client is simply waiting at the next guess prompt. -/
theorem C7_inround_error_nonfatal (st : Client) (raw : String) (ins : List String)
    (m : JVal) (frames : List (Option JVal)) (p mn mx : JVal)
    (hc : st.connected = true) (hg : ¬ pyStrip raw = "") :
    guess_loop (raw :: ins) (some (errObj m) :: frames)
      = ⟨[.guessPrompt, .sent (pyStrip raw), .errorNotice m]
            ++ (guess_loop ins frames).trace,
         (guess_loop ins frames).res, (guess_loop ins frames).ins,
         (guess_loop ins frames).frames⟩
    ∧ play_game st [raw] [some (gameStartObj p mn mx), some (errObj m)]
      = ⟨[.roundStart p mn mx, .guessPrompt, .sent (pyStrip raw), .errorNotice m,
          .guessPrompt], .blocked, st, [], []⟩ := by
  constructor
  · simp only [guess_loop, errObj, dictGet, typeIs, JVal.isStr, JVal.falsy]
    simp [hg]
  · simp [play_game, guess_loop, errObj, gameStartObj, dictGet, typeIs, JVal.isStr,
      JVal.falsy, hc, hg]

/-- C7 (witness): the concrete in-round error scenario. -/
theorem C7_witness :
    (⟨"ann", true⟩ : Client).connected = true ∧ ¬ pyStrip "7" = ""
    ∧ (guess_loop ["7"] [some (errObj (.str "invalid")), none]
        = ⟨[.guessPrompt, .sent (pyStrip "7"), .errorNotice (.str "invalid")]
              ++ (guess_loop [] [none]).trace,
           (guess_loop [] [none]).res, (guess_loop [] [none]).ins,
           (guess_loop [] [none]).frames⟩
       ∧ play_game ⟨"ann", true⟩ ["7"]
          [some (gameStartObj (.str "ann") (.num 0) (.num 100)),
           some (errObj (.str "invalid"))]
        = ⟨[.roundStart (.str "ann") (.num 0) (.num 100), .guessPrompt,
            .sent (pyStrip "7"), .errorNotice (.str "invalid"), .guessPrompt],
           .blocked, ⟨"ann", true⟩, [], []⟩) :=
  ⟨rfl, by decide,
    C7_inround_error_nonfatal ⟨"ann", true⟩ "7" [] (.str "invalid") [none]
      (.str "ann") (.num 0) (.num 100) rfl (by decide)⟩

/-- C10: an `error` frame received in the outer loop (before or between
rounds) renders the message and immediately returns `False` from the game
loop; the run loop then stops — no retry question, no reconnect. -/
theorem C10_outer_error_fatal (st : Client) (ins : List String) (m : JVal)
    (frames : List (Option JVal)) (conns : List Bool) (hc : st.connected = true) :
    play_game st ins (some (errObj m) :: frames)
      = ⟨[.errorNotice m], .ok false, st, ins, frames⟩
    ∧ run_loop st ins (some (errObj m) :: frames) conns
      = ⟨[.errorNotice m], .ok (), st, ins, frames, conns⟩ := by
  have h : play_game st ins (some (errObj m) :: frames)
      = ⟨[.errorNotice m], .ok false, st, ins, frames⟩ := by
    simp [play_game, errObj, dictGet, typeIs, JVal.isStr, JVal.falsy, hc]
  exact ⟨h, by simp [run_loop, h]⟩

/-- C10 (witness): the concrete out-of-round error scenario. -/
theorem C10_witness :
    (⟨"x", true⟩ : Client).connected = true
    ∧ (play_game ⟨"x", true⟩ [] [some (errObj (.str "nope"))]
        = ⟨[.errorNotice (.str "nope")], .ok false, ⟨"x", true⟩, [], []⟩
       ∧ run_loop ⟨"x", true⟩ [] [some (errObj (.str "nope"))] [true, true]
        = ⟨[.errorNotice (.str "nope")], .ok (), ⟨"x", true⟩, [], [], [true, true]⟩) :=
  ⟨rfl, C10_outer_error_fatal ⟨"x", true⟩ [] (.str "nope") [] [true, true] rfl⟩

/-- C9: for every way the run ends with control returning — normal return,
an uncaught exception, or the interrupt path — the `finally` block closes
the transport and the farewell is the final action. -/
theorem C9_shutdown_always (t : List Ev) (r : PyResult Unit) (hr : ¬ r = .blocked) :
    ∃ mid, main_run t r = some (t ++ mid ++ [.transportClosed, .farewell]) := by
  cases r with
  | ok a => exact ⟨[], by simp [main_run]⟩
  | exn e => exact ⟨[.errPrinted e], by simp [main_run]⟩
  | intr => exact ⟨[.interruptNote], by simp [main_run]⟩
  | blocked => exact absurd rfl hr

/-- C9 (witness): the shutdown shape at a concrete run outcome. -/
theorem C9_witness :
    ¬ (PyResult.ok () = PyResult.blocked)
    ∧ ∃ mid, main_run [Ev.welcomeBanner] (.ok ())
        = some ([Ev.welcomeBanner] ++ mid ++ [.transportClosed, .farewell]) :=
  ⟨by simp, C9_shutdown_always [Ev.welcomeBanner] (.ok ()) (by simp)⟩

/-- C2: whenever the game loop asks for a retry and the user says yes
(returns `True`), the reconnect sequence closes the old transport,
reconnects, drains up to two frames producing no outbound traffic and no
name-prompt exchange, and the first outbound line of the new connection is
the stored `player_name`, verbatim. -/
theorem C2_reconnect_replays_name (st st1 : Client) (ins ins1 : List String)
    (frames frames1 : List (Option JVal)) (conns : List Bool) (t : List Ev)
    (h : play_game st ins frames = ⟨t, .ok true, st1, ins1, frames1⟩) :
    run_loop st ins frames (true :: conns)
      = ⟨t ++ [Ev.reconnectNote, Ev.transportClosed, Ev.connectOk,
              Ev.sent st1.player_name]
            ++ (run_loop { st1 with connected := true } ins1 (frames1.drop 2) conns).trace,
         (run_loop { st1 with connected := true } ins1 (frames1.drop 2) conns).res,
         (run_loop { st1 with connected := true } ins1 (frames1.drop 2) conns).st,
         (run_loop { st1 with connected := true } ins1 (frames1.drop 2) conns).ins,
         (run_loop { st1 with connected := true } ins1 (frames1.drop 2) conns).frames,
         (run_loop { st1 with connected := true } ins1 (frames1.drop 2) conns).conns⟩ := by
  conv_lhs => rw [run_loop]
  simp [h, disconnect, connect]

/-- C2 (witness): a concrete session ending in a yes answer; the first
outbound line after the successful reconnect is the stored name `alice`. -/
theorem C2_witness :
    play_game ⟨"alice", true⟩ ["42", "o"]
        [some (gameStartObj (.str "bob") (.num 0) (.num 100)),
         some (victoryObj (.str "bob") (.num 42) (.num 2) (.num 13) (.num 9700)), none]
      = ⟨[.roundStart (.str "bob") (.num 0) (.num 100), .guessPrompt, .sent (pyStrip "42"),
          .victoryBanner, .celebration (.str "bob") (.num 42) (.num 2) (.num 13) (.num 9700),
          .retryPrompt], .ok true, ⟨"alice", true⟩, [], []⟩
    ∧ run_loop ⟨"alice", true⟩ ["42", "o"]
        [some (gameStartObj (.str "bob") (.num 0) (.num 100)),
         some (victoryObj (.str "bob") (.num 42) (.num 2) (.num 13) (.num 9700)), none]
        [true]
      = ⟨[.roundStart (.str "bob") (.num 0) (.num 100), .guessPrompt, .sent (pyStrip "42"),
          .victoryBanner, .celebration (.str "bob") (.num 42) (.num 2) (.num 13) (.num 9700),
          .retryPrompt]
          ++ [Ev.reconnectNote, Ev.transportClosed, Ev.connectOk, Ev.sent "alice"]
          ++ (run_loop ⟨"alice", true⟩ [] [] []).trace,
         (run_loop ⟨"alice", true⟩ [] [] []).res,
         (run_loop ⟨"alice", true⟩ [] [] []).st,
         (run_loop ⟨"alice", true⟩ [] [] []).ins,
         (run_loop ⟨"alice", true⟩ [] [] []).frames,
         (run_loop ⟨"alice", true⟩ [] [] []).conns⟩ := by
  have h : play_game ⟨"alice", true⟩ ["42", "o"]
      [some (gameStartObj (.str "bob") (.num 0) (.num 100)),
       some (victoryObj (.str "bob") (.num 42) (.num 2) (.num 13) (.num 9700)), none]
      = ⟨[.roundStart (.str "bob") (.num 0) (.num 100), .guessPrompt, .sent (pyStrip "42"),
          .victoryBanner, .celebration (.str "bob") (.num 42) (.num 2) (.num 13) (.num 9700),
          .retryPrompt], .ok true, ⟨"alice", true⟩, [], []⟩ := by
    have e1 : (pyStrip "42" == "") = false := by decide
    simp [play_game, guess_loop, gameStartObj, victoryObj, dictGet, typeIs, JVal.isStr,
      JVal.falsy, ask_retry, e1]
    rfl
  exact ⟨h, C2_reconnect_replays_name _ _ _ _ _ _ _ _ h⟩

/-- C5 (counterexample): a structured frame with the unknown type
`frobnicate` is *not* a decode failure: `receive_json` returns it parsed —
unlike an actually malformed frame, which yields nothing — and the session
does not treat it as one: it continues past the unknown frame and still
renders the following `stats` frame. -/
theorem C5_counterexample :
    receive_json (.parsed (.obj [("type", .str "frobnicate")]))
      = some (.obj [("type", .str "frobnicate")])
    ∧ receive_json .malformed = none
    ∧ (play_game ⟨"", true⟩ []
        [some (.obj [("type", .str "frobnicate")]), some statsObj0]).trace
      = [.statsPanel, .connectionLost] := by
  refine ⟨rfl, rfl, ?_⟩
  simp [play_game, statsObj0, display_stats, requireKey, requireNum, dictGet,
    typeIs, JVal.isStr, JVal.falsy]

/-- C5 (amended): a received structured object whose `type` value matches
no known variant decodes successfully and is silently ignored — the outer
loop proceeds directly to the next frame, and inside a round the loop
re-prompts for the next guess — with no fault raised and without being
treated as a connection loss. -/
theorem C5_amended (st : Client) (ins : List String) (frames : List (Option JVal))
    (fs : List (String × JVal)) (raw : String)
    (hc : st.connected = true) (hne : fs.isEmpty = false)
    (houter : ∀ k ∈ ["stats", "leaderboard", "prompt", "name_accepted", "game_start",
        "error"], typeIs (dictGet fs "type") k = false)
    (hinner : ∀ k ∈ ["hint", "victory", "stats", "error", "bye"],
        typeIs (dictGet fs "type") k = false)
    (hg : ¬ pyStrip raw = "") :
    play_game st ins (some (.obj fs) :: frames) = play_game st ins frames
    ∧ guess_loop (raw :: ins) (some (.obj fs) :: frames)
      = ⟨[.guessPrompt, .sent (pyStrip raw)] ++ (guess_loop ins frames).trace,
         (guess_loop ins frames).res, (guess_loop ins frames).ins,
         (guess_loop ins frames).frames⟩ := by
  have h1 := houter "stats" (by simp)
  have h2 := houter "leaderboard" (by simp)
  have h3 := houter "prompt" (by simp)
  have h4 := houter "name_accepted" (by simp)
  have h5 := houter "game_start" (by simp)
  have h6 := houter "error" (by simp)
  have h7 := hinner "hint" (by simp)
  have h8 := hinner "victory" (by simp)
  have h9 := hinner "bye" (by simp)
  constructor
  · conv_lhs => rw [play_game]
    simp [hc, JVal.falsy, hne, h1, h2, h3, h4, h5, h6]
  · simp only [guess_loop]
    simp [hg, JVal.falsy, hne, h1, h6, h7, h8, h9]

/-- C5 (amended, witness): the concrete unknown-type frame is skipped in
both loops. -/
theorem C5_amended_witness :
    (⟨"", true⟩ : Client).connected = true
    ∧ ([("type", JVal.str "frobnicate")] : List (String × JVal)).isEmpty = false
    ∧ ¬ pyStrip "7" = ""
    ∧ (play_game ⟨"", true⟩ [] (some (.obj [("type", .str "frobnicate")]) :: [some statsObj0])
        = play_game ⟨"", true⟩ [] [some statsObj0]
       ∧ guess_loop ["7"] (some (.obj [("type", .str "frobnicate")]) :: [some statsObj0])
        = ⟨[.guessPrompt, .sent (pyStrip "7")] ++ (guess_loop [] [some statsObj0]).trace,
           (guess_loop [] [some statsObj0]).res, (guess_loop [] [some statsObj0]).ins,
           (guess_loop [] [some statsObj0]).frames⟩) :=
  ⟨rfl, rfl, by decide,
    C5_amended ⟨"", true⟩ [] [some statsObj0] [("type", .str "frobnicate")] "7"
      rfl rfl (by decide) (by decide) (by decide)⟩

/-- C6: a frame that fails to parse is literally indistinguishable from no
data: `receive_json` yields `none` for both, every session behaviour is
unchanged when one is substituted for the other anywhere in the stream, a
malformed frame between rounds ends the session with a connection-loss
report, and a malformed reply inside a round (with nothing further
arriving) ends the session the same way — in no case with a crash. -/
theorem C6_malformed_is_no_data (st : Client) (ins : List String)
    (net1 net2 : List NetEv) (raw : String) (p mn mx : JVal)
    (hc : st.connected = true) (hg : ¬ pyStrip raw = "") :
    receive_json .malformed = receive_json .closed
    ∧ play_gameNet st ins (net1 ++ .malformed :: net2)
        = play_gameNet st ins (net1 ++ .closed :: net2)
    ∧ play_gameNet st ins (.malformed :: net2)
        = ⟨[.connectionLost], .ok false, st, ins, net2.map receive_json⟩
    ∧ play_gameNet st (raw :: ins) [.parsed (gameStartObj p mn mx), .malformed]
        = ⟨[.roundStart p mn mx, .guessPrompt, .sent (pyStrip raw), .connectionLost],
           .ok false, st, ins, []⟩ := by
  refine ⟨rfl, ?_, ?_, ?_⟩
  · simp [play_gameNet, receive_json]
  · have e : play_gameNet st ins (.malformed :: net2)
        = play_game st ins (none :: net2.map receive_json) := rfl
    rw [e]
    simp [play_game, hc]
  · simp [play_gameNet, play_game, guess_loop, gameStartObj, dictGet, typeIs,
      JVal.isStr, JVal.falsy, hc, hg, receive_json]

/-- C6 (witness): the concrete malformed-frame scenarios. -/
theorem C6_witness :
    (⟨"bob", true⟩ : Client).connected = true ∧ ¬ pyStrip "7" = ""
    ∧ (receive_json .malformed = receive_json .closed
       ∧ play_gameNet ⟨"bob", true⟩ [] ([.parsed statsObj0] ++ .malformed :: [])
          = play_gameNet ⟨"bob", true⟩ [] ([.parsed statsObj0] ++ .closed :: [])
       ∧ play_gameNet ⟨"bob", true⟩ [] (.malformed :: [])
          = ⟨[.connectionLost], .ok false, ⟨"bob", true⟩, [],
             ([] : List NetEv).map receive_json⟩
       ∧ play_gameNet ⟨"bob", true⟩ ["7"]
            [.parsed (gameStartObj (.str "bob") (.num 1) (.num 10)), .malformed]
          = ⟨[.roundStart (.str "bob") (.num 1) (.num 10), .guessPrompt,
              .sent (pyStrip "7"), .connectionLost], .ok false, ⟨"bob", true⟩, [], []⟩) :=
  ⟨rfl, by decide,
    C6_malformed_is_no_data ⟨"bob", true⟩ [] [.parsed statsObj0] [] "7"
      (.str "bob") (.num 1) (.num 10) rfl (by decide)⟩

/-- A successful stats render contains no outbound line. -/
theorem display_stats_no_sent (v : JVal) (evs : List Ev) (l : String)
    (h : display_stats v = .ok evs) : Ev.sent l ∉ evs := by
  rw [display_stats_ok v evs h]; simp

/-- A successful leaderboard render contains no outbound line. -/
theorem display_leaderboard_no_sent (v : JVal) (evs : List Ev) (l : String)
    (h : display_leaderboard v = .ok evs) : Ev.sent l ∉ evs := by
  rcases display_leaderboard_ok v evs h with h1 | h1 <;> rw [h1] <;> simp

/-- Every outbound line the guess loop produces is nonempty. -/
theorem guess_loop_sent_nonempty (ins : List String) :
    ∀ frames l, Ev.sent l ∈ (guess_loop ins frames).trace → ¬ l = "" := by
  induction ins with
  | nil => intro frames l h; simp [guess_loop] at h
  | cons raw ins ih =>
    intro frames l h
    simp only [guess_loop] at h
    repeat' split at h
    all_goals simp_all [ask_retry_trace]
    all_goals (try (intro hl; subst hl))
    all_goals (try casesm* _ ∨ _)
    all_goals first
      | exact (ih _ _ (by assumption)) rfl
      | exact absurd (by assumption) (display_stats_no_sent _ _ _ (by assumption))
      | exact absurd (by assumption) (display_leaderboard_no_sent _ _ _ (by assumption))
      | simp_all

/-- C8: while in a round, an empty (stripped) input is never sent — every
outbound line the guess loop produces is nonempty — and an empty input is
re-prompted: the loop prints another guess prompt and continues on the
remaining inputs with nothing consumed from the network. -/
theorem C8_empty_input_reprompted :
    (∀ ins frames l, Ev.sent l ∈ (guess_loop ins frames).trace → ¬ l = "")
    ∧ (∀ raw ins frames, pyStrip raw = "" →
        guess_loop (raw :: ins) frames
          = ⟨.guessPrompt :: (guess_loop ins frames).trace, (guess_loop ins frames).res,
             (guess_loop ins frames).ins, (guess_loop ins frames).frames⟩) := by
  constructor
  · exact guess_loop_sent_nonempty
  · intro raw ins frames hr
    simp [guess_loop, hr]

/-- C8 (witness): a sent guess is nonempty, and a whitespace-only input is
re-prompted. -/
theorem C8_witness :
    ¬ ("7" : String) = ""
    ∧ guess_loop [" ", "7"] []
      = ⟨.guessPrompt :: (guess_loop ["7"] []).trace, (guess_loop ["7"] []).res,
         (guess_loop ["7"] []).ins, (guess_loop ["7"] []).frames⟩ :=
  ⟨C8_empty_input_reprompted.1 ["7"] [] "7"
      (by rw [show (guess_loop ["7"] []).trace = [Ev.guessPrompt, Ev.sent "7"] from rfl]
          simp),
    C8_empty_input_reprompted.2 " " ["7"] [] (by decide)⟩

/-- C1: a well-formed `victory` reply always leads to the retry question:
the celebration is rendered, exactly one courtesy receive is consumed, the
retry question is then asked (with outcome given by `ask_retry`, i.e. the
transition to the retry decision), and a leaderboard panel is rendered iff
the courtesy frame arrived truthy and leaderboard-typed — uniformly for
every benign courtesy outcome: a leaderboard, some other frame, or a
timeout/no-data (`none`). -/
theorem C1_victory_always_retry (g : String) (ins : List String)
    (fs : List (String × JVal)) (c : Option JVal) (rest : List (Option JVal))
    (hg : ¬ pyStrip g = "")
    (hty : typeIs (dictGet fs "type") "victory" = true)
    (hp : (dictGet fs "player").isSome = true)
    (hn : (dictGet fs "number").isSome = true)
    (ha : (dictGet fs "attempts").isSome = true)
    (hd : (dictGet fs "duration").isSome = true)
    (hs : (dictGet fs "score").isSome = true)
    (hb : courtesyBenign c = true) :
    (guess_loop (g :: ins) (some (.obj fs) :: c :: rest)).frames = rest
    ∧ Ev.victoryBanner ∈ (guess_loop (g :: ins) (some (.obj fs) :: c :: rest)).trace
    ∧ Ev.retryPrompt ∈ (guess_loop (g :: ins) (some (.obj fs) :: c :: rest)).trace
    ∧ (guess_loop (g :: ins) (some (.obj fs) :: c :: rest)).res
        = (ask_retry ins).2.1.pmap InnerRes.finished
    ∧ ((Ev.leaderboardPanel ∈ (guess_loop (g :: ins) (some (.obj fs) :: c :: rest)).trace
        ∨ Ev.emptyLeaderboard ∈ (guess_loop (g :: ins) (some (.obj fs) :: c :: rest)).trace)
        ↔ rendersLeaderboard c = true) := by
  have hty' : dictGet fs "type" = some (.str "victory") := typeIs_eq _ _ hty
  obtain ⟨p, hp'⟩ := Option.isSome_iff_exists.mp hp
  obtain ⟨n, hn'⟩ := Option.isSome_iff_exists.mp hn
  obtain ⟨a, ha'⟩ := Option.isSome_iff_exists.mp ha
  obtain ⟨d, hd'⟩ := Option.isSome_iff_exists.mp hd
  obtain ⟨s, hs'⟩ := Option.isSome_iff_exists.mp hs
  have hne : fs.isEmpty = false := dictGet_isEmpty_false _ _ _ hty'
  have hvf : (JVal.obj fs).falsy = false := by simp [JVal.falsy, hne]
  have t1 : typeIs (some (JVal.str "victory")) "hint" = false := rfl
  have t2 : typeIs (some (JVal.str "victory")) "victory" = true := rfl
  cases c with
  | none =>
    simp [guess_loop, hg, hty', t1, t2, hp', hn', ha', hd', hs',
      hvf, ask_retry_trace, rendersLeaderboard]
  | some lb =>
    by_cases hf : lb.falsy = true
    · have hrl : rendersLeaderboard (some lb) = false := by
        cases lb <;> simp_all [rendersLeaderboard, JVal.falsy]
      simp [guess_loop, hg, hty', t1, t2, hp', hn', ha', hd', hs',
        hvf, hf, ask_retry_trace, hrl]
    · have hf' : lb.falsy = false := by simpa using hf
      cases lb with
      | obj fs2 =>
        by_cases hlb : typeIs (dictGet fs2 "type") "leaderboard" = true
        · have hdl : ∃ evs, display_leaderboard (.obj fs2) = .ok evs := by
            revert hb
            simp only [courtesyBenign, hf', Bool.false_or, hlb, if_true]
            cases display_leaderboard (.obj fs2) <;> simp
          obtain ⟨evs, hdl⟩ := hdl
          have hrl : rendersLeaderboard (some (.obj fs2)) = true := by
            simp [rendersLeaderboard, hf', hlb]
          rcases display_leaderboard_ok _ _ hdl with he | he <;>
            subst he <;>
            simp [guess_loop, hg, hty', t1, t2, hp', hn', ha', hd', hs',
              hvf, hf', hlb, hdl, ask_retry_trace, hrl]
        · have hlb' : typeIs (dictGet fs2 "type") "leaderboard" = false := by simpa using hlb
          have hrl : rendersLeaderboard (some (.obj fs2)) = false := by
            simp [rendersLeaderboard, hlb']
          simp [guess_loop, hg, hty', t1, t2, hp', hn', ha', hd', hs',
            hvf, hf', hlb', ask_retry_trace, hrl]
      | null => simp_all [courtesyBenign, JVal.falsy]
      | bool b => simp_all [courtesyBenign, JVal.falsy]
      | num k => simp_all [courtesyBenign, JVal.falsy]
      | str s2 => simp_all [courtesyBenign, JVal.falsy]
      | arr xs => simp_all [courtesyBenign, JVal.falsy]

/-- C1 (witness): the concrete victory scenario with an empty-leaderboard
courtesy frame. -/
theorem C1_witness :
    ¬ pyStrip "42" = ""
    ∧ typeIs (dictGet vfields0 "type") "victory" = true
    ∧ (dictGet vfields0 "player").isSome = true
    ∧ (dictGet vfields0 "number").isSome = true
    ∧ (dictGet vfields0 "attempts").isSome = true
    ∧ (dictGet vfields0 "duration").isSome = true
    ∧ (dictGet vfields0 "score").isSome = true
    ∧ courtesyBenign (some lbObj0) = true
    ∧ ((guess_loop ("42" :: ["n"]) (some (.obj vfields0) :: some lbObj0 :: [])).frames = []
       ∧ Ev.victoryBanner
          ∈ (guess_loop ("42" :: ["n"]) (some (.obj vfields0) :: some lbObj0 :: [])).trace
       ∧ Ev.retryPrompt
          ∈ (guess_loop ("42" :: ["n"]) (some (.obj vfields0) :: some lbObj0 :: [])).trace
       ∧ (guess_loop ("42" :: ["n"]) (some (.obj vfields0) :: some lbObj0 :: [])).res
          = (ask_retry ["n"]).2.1.pmap InnerRes.finished
       ∧ ((Ev.leaderboardPanel
            ∈ (guess_loop ("42" :: ["n"]) (some (.obj vfields0) :: some lbObj0 :: [])).trace
          ∨ Ev.emptyLeaderboard
            ∈ (guess_loop ("42" :: ["n"]) (some (.obj vfields0) :: some lbObj0 :: [])).trace)
          ↔ rendersLeaderboard (some lbObj0) = true)) :=
  ⟨by decide, by decide, by decide, by decide, by decide, by decide, by decide, by decide,
    C1_victory_always_retry "42" ["n"] vfields0 (some lbObj0) [] (by decide) (by decide)
      (by decide) (by decide) (by decide) (by decide) (by decide) (by decide)⟩
